import Mathlib

/-!
Verification of the SFEX REST API client (`sfex_api.py`).

The development shallowly embeds the client's data model and operations:
Python dictionaries become association lists that record insertion order
(CPython dicts preserve insertion order), scalar parameter values become a
small sum type of strings and integers, byte strings become `List Nat`
(each entry a byte value), and the wall clock read by `time.time()` becomes
an explicit argument.  `hmac`/`hashlib`/`base64` are embedded as executable
implementations of HMAC-SHA-256 and Base64 over byte lists.
-/

set_option maxHeartbeats 1000000

namespace Sfex

/-- Scalar values stored in the client's request dictionaries: the Python
source only ever stores `str` and `int` values. -/
inductive Param where
  | s (v : String)
  | i (n : Int)
  deriving DecidableEq, Repr

/-- Python `str()` as applied by `"{}={}".format` to a dictionary value. -/
def Param.str : Param → String
  | .s v => v
  | .i n => toString n

/-- A Python dictionary with string keys, modelled as an association list in
insertion order (keys are unique in any dict built by the client). -/
abbrev Dict := List (String × Param)

/-- UTF-8 encoding of a single Unicode code point, as a list of byte values. -/
def utf8Char (n : Nat) : List Nat :=
  if n < 128 then [n]
  else if n < 2048 then [192 + n / 64, 128 + n % 64]
  else if n < 65536 then [224 + n / 4096, 128 + n / 64 % 64, 128 + n % 64]
  else [240 + n / 262144, 128 + n / 4096 % 64, 128 + n / 64 % 64, 128 + n % 64]

/-- UTF-8 encoding of a string (Python's `str.encode("utf-8")`). -/
def utf8 (s : String) : List Nat :=
  s.data.foldr (fun c acc => utf8Char c.toNat ++ acc) []

/-- Modulus for 32-bit words. -/
def w32 : Nat := 4294967296

/-- Right rotation of a 32-bit word by `k` positions, on `Nat` values below
`w32` (the two summands occupy disjoint bit ranges). -/
def rotateR (w k : Nat) : Nat := (w / 2 ^ k + w % 2 ^ k * 2 ^ (32 - k)) % w32

/-- Logical right shift by `k` positions. -/
def shiftRw (w k : Nat) : Nat := w / 2 ^ k

/-- The SHA-256 choice function (complement taken inside 32 bits). -/
def chooseBits (a b c : Nat) : Nat := (a &&& b) ^^^ ((a ^^^ 4294967295) &&& c)

/-- The SHA-256 majority function. -/
def majorityBits (a b c : Nat) : Nat := (a &&& b) ^^^ ((a &&& c) ^^^ (b &&& c))

/-- The compression mix applied to working variable `a` (FIPS 180-4 Σ0). -/
def bigSigmaA (w : Nat) : Nat := rotateR w 2 ^^^ (rotateR w 13 ^^^ rotateR w 22)

/-- The compression mix applied to working variable `e` (FIPS 180-4 Σ1). -/
def bigSigmaE (w : Nat) : Nat := rotateR w 6 ^^^ (rotateR w 11 ^^^ rotateR w 25)

/-- The schedule mix σ0 of FIPS 180-4. -/
def smallSigma0 (w : Nat) : Nat := rotateR w 7 ^^^ (rotateR w 18 ^^^ shiftRw w 3)

/-- The schedule mix σ1 of FIPS 180-4. -/
def smallSigma1 (w : Nat) : Nat := rotateR w 17 ^^^ (rotateR w 19 ^^^ shiftRw w 10)

/-- The 64 SHA-256 round constants, written in decimal. -/
def roundConsts : List Nat :=
  [1116352408, 1899447441, 3049323471, 3921009573, 961987163,
   1508970993, 2453635748, 2870763221, 3624381080, 310598401,
   607225278, 1426881987, 1925078388, 2162078206, 2614888103,
   3248222580, 3835390401, 4022224774, 264347078, 604807628,
   770255983, 1249150122, 1555081692, 1996064986, 2554220882,
   2821834349, 2952996808, 3210313671, 3336571891, 3584528711,
   113926993, 338241895, 666307205, 773529912, 1294757372,
   1396182291, 1695183700, 1986661051, 2177026350, 2456956037,
   2730485921, 2820302411, 3259730800, 3345764771, 3516065817,
   3600352804, 4094571909, 275423344, 430227734, 506948616,
   659060556, 883997877, 958139571, 1322822218, 1537002063,
   1747873779, 1955562222, 2024104815, 2227730452, 2361852424,
   2428436474, 2756734187, 3204031479, 3329325298]

/-- The eight SHA-256 initial hash words, written in decimal. -/
def initState : List Nat :=
  [1779033703, 3144134277, 1013904242, 2773480762,
   1359893119, 2600822924, 528734635, 1541459225]

/-- Big-endian byte decomposition of `n` into `k` bytes. -/
def beBytes : Nat → Nat → List Nat
  | 0, _ => []
  | k + 1, n => beBytes k (n / 256) ++ [n % 256]

/-- Group a byte list into big-endian 32-bit words. -/
def toWords : List Nat → List Nat
  | b0 :: b1 :: b2 :: b3 :: rest => (b0 * 16777216 + b1 * 65536 + b2 * 256 + b3) :: toWords rest
  | _ => []

/-- Split a byte list into 64-byte blocks. -/
def chunk64 : List Nat → List (List Nat)
  | [] => []
  | b :: bs => (b :: bs).take 64 :: chunk64 ((b :: bs).drop 64)
termination_by l => l.length
decreasing_by
  simp [List.length_drop]
  omega

/-- Extend a 16-word block to the 64-word SHA-256 message schedule. -/
def schedule (ws : List Nat) : List Nat :=
  (List.range 48).foldl
    (fun acc _ =>
      let m := acc.length
      acc ++ [(smallSigma1 (acc.getD (m - 2) 0) + acc.getD (m - 7) 0
               + smallSigma0 (acc.getD (m - 15) 0) + acc.getD (m - 16) 0) % w32])
    ws

/-- SHA-256 compression of one 64-byte block into the running hash state. -/
def compress (h : List Nat) (block : List Nat) : List Nat :=
  let ws := schedule (toWords block)
  let st := (List.zip ws roundConsts).foldl
    (fun st kw =>
      let e := st.getD 4 0
      let t1 := (st.getD 7 0 + bigSigmaE e + chooseBits e (st.getD 5 0) (st.getD 6 0)
                 + kw.2 + kw.1) % w32
      let t2 := (bigSigmaA (st.getD 0 0)
                 + majorityBits (st.getD 0 0) (st.getD 1 0) (st.getD 2 0)) % w32
      [(t1 + t2) % w32, st.getD 0 0, st.getD 1 0, st.getD 2 0,
       (st.getD 3 0 + t1) % w32, e, st.getD 5 0, st.getD 6 0])
    h
  List.zipWith (fun x y => (x + y) % w32) h st

/-- SHA-256 padding: append `0x80`, zero bytes up to 56 mod 64, then the
64-bit big-endian bit length. -/
def sha256Pad (msg : List Nat) : List Nat :=
  msg ++ [128] ++ List.replicate ((119 - msg.length % 64) % 64) 0 ++ beBytes 8 (msg.length * 8)

/-- SHA-256 digest of a byte list, as 32 bytes. -/
def sha256 (msg : List Nat) : List Nat :=
  ((chunk64 (sha256Pad msg)).foldl compress initState).foldr
    (fun wo acc => beBytes 4 wo ++ acc) []

/-- HMAC-SHA-256 (Python `hmac.new(key=k, msg=m, digestmod=hashlib.sha256)`). -/
def hmacSha256 (key msg : List Nat) : List Nat :=
  let k0 := if 64 < key.length then sha256 key else key
  let kp := k0 ++ List.replicate (64 - k0.length) 0
  sha256 (kp.map (fun b => b ^^^ 92) ++ sha256 (kp.map (fun b => b ^^^ 54) ++ msg))

/-- Character of the standard Base64 alphabet at a 6-bit index. -/
def b64Char (n : Nat) : Char :=
  "ABCDEFGHIJKLMNOPQRSTUVWXYZabcdefghijklmnopqrstuvwxyz0123456789+/".data.getD n 'A'

/-- Standard Base64 encoding of a byte list (`base64.b64encode`); the
resulting ASCII bytes are kept as a string. -/
def b64encode : List Nat → String
  | [] => ""
  | [b0] => ⟨[b64Char (b0 / 4), b64Char (b0 % 4 * 16), '=', '=']⟩
  | [b0, b1] => ⟨[b64Char (b0 / 4), b64Char (b0 % 4 * 16 + b1 / 16), b64Char (b1 % 16 * 4), '=']⟩
  | b0 :: b1 :: b2 :: rest =>
    (⟨[b64Char (b0 / 4), b64Char (b0 % 4 * 16 + b1 / 16),
       b64Char (b1 % 16 * 4 + b2 / 64), b64Char (b2 % 64)]⟩ : String) ++ b64encode rest

/-- Embedding of `Client._order_params`: the loop copies the dictionary's
(key, value) pairs, in iteration order, into a list. -/
def order_params (data : Dict) : Dict :=
  data.foldl (fun params kv => params ++ [kv]) []

/-- One `"{}={}".format(d[0], d[1])` fragment of the canonical string. -/
def fmtPair (p : String × Param) : String := p.1 ++ "=" ++ Param.str p.2

/-- Python `'&'.join`. -/
def joinAmp : List String → String
  | [] => ""
  | [s] => s
  | s :: t :: rest => s ++ "&" ++ joinAmp (t :: rest)

/-- Canonical query string built inside `Client._generate_signature`. -/
def queryString (data : Dict) : String := joinAmp ((order_params data).map fmtPair)

/-- Embedding of `Client._generate_signature`: Base64 of the HMAC-SHA-256
digest of the canonical query string, keyed by the API secret.  (In Python
the result is a `bytes` object; its ASCII text is kept here.) -/
def generate_signature (secret : String) (data : Dict) : String :=
  b64encode (hmacSha256 (utf8 secret) (utf8 (queryString data)))

/-- Signature as described by the specification's words: Base64 of the
HMAC-SHA-256 digest, keyed by the UTF-8 secret, of the UTF-8 bytes of the
string joining `key=value` fragments for the pairs in insertion order
(no sorting) with `&` separators. -/
def specSignature (secret : String) (data : Dict) : String :=
  b64encode (hmacSha256 (utf8 secret)
    (utf8 (joinAmp (data.map (fun kv => kv.1 ++ "=" ++ Param.str kv.2)))))

theorem foldl_push_eq (l acc : Dict) :
    l.foldl (fun params kv => params ++ [kv]) acc = acc ++ l := by
  induction l generalizing acc with
  | nil => simp
  | cons hd tl ih => simp [List.foldl_cons, ih]

theorem order_params_eq (data : Dict) : order_params data = data := by
  simp [order_params, foldl_push_eq]

/-- C1: for every parameter mapping, `_generate_signature` produces the
Base64 encoding of the HMAC-SHA-256 digest, keyed by the UTF-8 bytes of the
API secret, of the UTF-8 bytes of the canonical string joining `key=value`
fragments in the mapping's insertion order (without sorting) with `&`
separators. -/
theorem C1_generate_signature_spec (secret : String) (data : Dict) :
    generate_signature secret data = specSignature secret data := by
  unfold generate_signature specSignature queryString
  rw [order_params_eq]
  exact rfl

/-- The three API destinations (`API_TYPE` enum in the source). -/
inductive API_TYPE where
  | ORDER
  | USER
  | QUOTE
  deriving DecidableEq, Repr

/-- Class attribute `Client.API_URL`. -/
def API_URL : String := "https://api.sfex.net"

/-- Class attribute `Client.API_ORDER`. -/
def API_ORDER : String := "order"

/-- Class attribute `Client.API_USER`. -/
def API_USER : String := "balance"

/-- Class attribute `Client.API_QUOTE`. -/
def API_QUOTE : String := "https://q.sfex.net/v1"

/-- Embedding of `Client._create_api_uri` (the class attributes are never
shadowed, so the method does not depend on instance state). -/
def create_api_uri (path : String) (t : API_TYPE) : String :=
  match t with
  | .ORDER => API_URL ++ "/" ++ API_ORDER ++ "/" ++ path
  | .USER => API_URL ++ "/" ++ API_USER ++ "/" ++ path
  | .QUOTE => API_QUOTE ++ "/" ++ path

/-- A Python value as classified by `isinstance(x, dict)`: either a dict
with its entries, or some non-dict value. -/
inductive PyObj where
  | dict (d : Dict)
  | other
  deriving DecidableEq, Repr

/-- Entries of the optional `requests_params` dictionary that `_request`
merges into `kwargs` via `kwargs.update(...)`; only the keys the dispatcher
later reads are modelled (`headers` is modelled but never read, because the
code overwrites `kwargs['headers']` before any read). -/
structure ReqParams where
  timeout : Option Int := none
  data : Option PyObj := none
  params : Option PyObj := none
  headers : Option PyObj := none
  deriving DecidableEq, Repr

/-- The keyword arguments a caller passes to `_request`, restricted to the
keys the dispatcher reads or overwrites. -/
structure Kwargs where
  timeout : Option Int := none
  data : Option PyObj := none
  params : Option PyObj := none
  headers : Option PyObj := none
  deriving DecidableEq, Repr

/-- Python `kwargs.update(requests_params)`: keys present in
`requests_params` override those in `kwargs`. -/
def updateKwargs (k : Kwargs) (rp : ReqParams) : Kwargs :=
  { timeout := rp.timeout <|> k.timeout,
    data := rp.data <|> k.data,
    params := rp.params <|> k.params,
    headers := rp.headers <|> k.headers }

/-- State of a `Client` instance: the credentials stored by `__init__` and
the optional global `requests_params` (the HTTP session holds no state the
claims depend on). -/
structure Client where
  API_KEY : String
  API_SECRET : String
  requests_params : Option ReqParams := none
  deriving DecidableEq, Repr

/-- The HTTP request handed to `getattr(self._session, method)(uri, **kwargs)`:
`data` is sent as the form-encoded body and `params` as the query string. -/
structure Request where
  method : String
  uri : String
  timeout : Option Int
  data : Dict
  params : Dict
  headers : List (String × String)
  deriving DecidableEq, Repr

/-- Result of a dispatch: the outgoing request, the contents of the
caller-supplied `data` dictionary after the call (CPython aliasing makes the
dispatcher's in-place mutation visible through it), and the client state
after the call. -/
structure DispatchResult where
  req : Request
  callerData : Dict
  clientAfter : Client
  deriving DecidableEq, Repr

/-- Embedding of `if x and isinstance(x, dict): ... else {}`: the value kept
in `kwargs` is the dict itself when it is a non-empty (truthy) dict, and a
fresh empty dict otherwise. -/
def normMap : Option PyObj → Dict
  | some (.dict d) => if d.isEmpty then [] else d
  | _ => []

/-- Python dict item assignment `d[k] = v`: an existing key is updated in
place (keeping its position), a new key is appended at the end. -/
def dictSet (d : Dict) (k : String) (v : Param) : Dict :=
  match d with
  | [] => [(k, v)]
  | (k0, v0) :: rest => if k0 = k then (k, v) :: rest else (k0, v0) :: dictSet rest k v

/-- Key membership in a dict. -/
def dictHasKey (d : Dict) (k : String) : Bool := d.any (fun p => p.1 == k)

/-- Embedding of `Client._request`.  `now` is the value of
`int(round(time.time()))` at the moment of the call.  The caller-visible
contents of the supplied `data` dict after the call are reconstructed from
the aliasing in the code: `kwargs['data'] = data` keeps the caller's object
exactly when `requests_params` does not override `data` and the caller's
dict is truthy; only then does the nonce assignment mutate it. -/
def request (c : Client) (method path : String) (t : API_TYPE) (signed : Bool)
    (kwargs : Kwargs) (now : Int) : DispatchResult :=
  let uri := create_api_uri path t
  let k1 : Kwargs := { kwargs with timeout := some 10 }
  let k2 : Kwargs :=
    match c.requests_params with
    | some rp => updateKwargs k1 rp
    | none => k1
  let data0 : Dict := normMap k2.data
  let params0 : Dict := normMap k2.params
  let data1 : Dict := if signed then dictSet data0 "nonce" (Param.i now) else data0
  let headers : List (String × String) :=
    if signed then
      [("version", "2.4"), ("key", c.API_KEY), ("sign", generate_signature c.API_SECRET data1)]
    else
      [("version", "2.4")]
  let callerData : Dict :=
    match kwargs.data with
    | some (.dict d) =>
      match c.requests_params with
      | some rp => if rp.data.isSome then d else (if d.isEmpty then d else data1)
      | none => if d.isEmpty then d else data1
    | _ => []
  { req := { method := method, uri := uri, timeout := k2.timeout, data := data1,
             params := params0, headers := headers },
    callerData := callerData,
    clientAfter := c }

/-- Embedding of `Client._create_order`. -/
def create_order (c : Client) (symbol : String) (side : Int) (price amount : Param)
    (now : Int) : DispatchResult :=
  request c "post" "create" API_TYPE.ORDER true
    { data := some (PyObj.dict [("symbol", Param.s symbol), ("side", Param.i side),
                                ("type", Param.i 1), ("price", price), ("amount", amount)]) }
    now

/-- Embedding of `Client.create_buy_order`. -/
def create_buy_order (c : Client) (symbol : String) (price amount : Param)
    (now : Int) : DispatchResult :=
  create_order c symbol 1 price amount now

/-- Embedding of `Client.create_sell_order`. -/
def create_sell_order (c : Client) (symbol : String) (price amount : Param)
    (now : Int) : DispatchResult :=
  create_order c symbol 2 price amount now

/-- Embedding of `Client.get_ticker` (note the source passes its empty
`params` dict through the `data` keyword). -/
def get_ticker (c : Client) (symbol : String) (now : Int) : DispatchResult :=
  request c "get" ("ticker/" ++ symbol) API_TYPE.QUOTE false
    { data := some (PyObj.dict []) } now

/-- Embedding of `Client.get_depth` (the source passes its `params` dict
through the `data` keyword, so the three fields travel in `data`). -/
def get_depth (c : Client) (symbol : String) (now : Int) : DispatchResult :=
  request c "get" ("orderbook/" ++ symbol) API_TYPE.QUOTE false
    { data := some (PyObj.dict [("offset", Param.i 10), ("accuracy", Param.i 5),
                                ("size", Param.i 5)]) } now

/-- Embedding of `Client.get_user_balance`. -/
def get_user_balance (c : Client) (now : Int) : DispatchResult :=
  request c "post" "list" API_TYPE.USER true { data := some (PyObj.dict []) } now

/-- Embedding of `Client.get_history_orders`. -/
def get_history_orders (c : Client) (page size : Param) (now : Int) : DispatchResult :=
  request c "post" "history" API_TYPE.ORDER true
    { data := some (PyObj.dict [("page", page), ("size", size)]) } now

/-- Embedding of `Client.cancel_order`. -/
def cancel_order (c : Client) (symbol : String) (order_id : Param) (now : Int) :
    DispatchResult :=
  request c "post" "remove" API_TYPE.ORDER true
    { data := some (PyObj.dict [("symbol", Param.s symbol), ("order_id", order_id)]) } now

/-- Embedding of `Client.get_open_orders`. -/
def get_open_orders (c : Client) (symbol : String) (page size : Param) (now : Int) :
    DispatchResult :=
  request c "post" "active" API_TYPE.ORDER true
    { data := some (PyObj.dict [("symbol", Param.s symbol), ("page", page), ("size", size)]) }
    now

/-- An HTTP response as seen by `_handle_response`: the integer status code
and the outcome of `response.json()` — `some` the parsed body, `none` when
the body is empty or unparseable (the `ValueError` case). -/
structure Response (J : Type) where
  status_code : Nat
  jsonBody : Option J

/-- Python `str.startswith('2')`: true iff the first character is `'2'`. -/
def startswith2 (s : String) : Bool :=
  match s.data with
  | [] => false
  | c :: _ => c == '2'

/-- Embedding of `Client._handle_response`. -/
def handle_response {J : Type} (r : Response J) : Option J :=
  if startswith2 (Nat.repr r.status_code) then r.jsonBody else none

/-- Leading digit of the decimal representation of a natural number. -/
def firstDecimalDigit (n : Nat) : Nat :=
  if h : n < 10 then n else firstDecimalDigit (n / 10)
termination_by n
decreasing_by
  exact Nat.div_lt_self (by omega) (by omega)

/-- A concrete client used to instantiate claims at specific inputs. -/
def demoClient : Client := { API_KEY := "demo-key", API_SECRET := "demo-secret" }

/-- A concrete client sharing `demoClient`'s key but with a different secret. -/
def demoClient2 : Client := { API_KEY := "demo-key", API_SECRET := "other-secret" }

/-- A concrete client carrying global request parameters that try to override
the timeout and the headers. -/
def demoRpClient : Client :=
  { API_KEY := "demo-key", API_SECRET := "demo-secret",
    requests_params := some { timeout := some 42,
                              headers := some (PyObj.dict [("key", Param.s "spoof")]) } }

/-- The six body fields of a buy order in the insertion order produced by
`_create_order` followed by the dispatcher's nonce injection. -/
def buyOrderFields (symbol : String) (price amount : Param) (now : Int) : Dict :=
  [("symbol", Param.s symbol), ("side", Param.i 1), ("type", Param.i 1),
   ("price", price), ("amount", amount), ("nonce", Param.i now)]

theorem dictSet_not_mem (d : Dict) (k : String) (v : Param) (h : dictHasKey d k = false) :
    dictSet d k v = d ++ [(k, v)] := by
  induction d with
  | nil => rfl
  | cons p rest ih =>
    obtain ⟨k0, v0⟩ := p
    simp only [dictHasKey, List.any_cons, Bool.or_eq_false_iff, beq_eq_false_iff_ne] at h
    rw [dictSet, if_neg h.1]
    rw [ih]
    · rfl
    · simp only [dictHasKey]
      exact h.2

/-- C4: the URI builder maps ORDER to `{order_host}/order/{path}`, USER to
`{order_host}/balance/{path}` and QUOTE to `{quote_host}/{path}`; the three
example URLs of the specification are produced; and the quote host is a
distinct domain from the order/user host, so a QUOTE URL never coincides
with an ORDER or USER URL. -/
theorem C4_uri_builder :
    (∀ path : String,
        create_api_uri path API_TYPE.ORDER = "https://api.sfex.net/order/" ++ path
        ∧ create_api_uri path API_TYPE.USER = "https://api.sfex.net/balance/" ++ path
        ∧ create_api_uri path API_TYPE.QUOTE = "https://q.sfex.net/v1/" ++ path)
    ∧ create_api_uri "ticker/BTCUSD" API_TYPE.QUOTE = "https://q.sfex.net/v1/ticker/BTCUSD"
    ∧ create_api_uri "create" API_TYPE.ORDER = "https://api.sfex.net/order/create"
    ∧ create_api_uri "list" API_TYPE.USER = "https://api.sfex.net/balance/list"
    ∧ (∀ p q : String,
        create_api_uri p API_TYPE.QUOTE ≠ create_api_uri q API_TYPE.ORDER
        ∧ create_api_uri p API_TYPE.QUOTE ≠ create_api_uri q API_TYPE.USER) := by
  refine ⟨fun path => ⟨rfl, rfl, rfl⟩, rfl, rfl, rfl, fun p q => ⟨?_, ?_⟩⟩
  · intro hcontra
    have h1 : create_api_uri p API_TYPE.QUOTE = "https://q" ++ (".sfex.net/v1/" ++ p) := rfl
    have h2 : create_api_uri q API_TYPE.ORDER = "https://a" ++ ("pi.sfex.net/order/" ++ q) := rfl
    rw [h1, h2] at hcontra
    have hd := congrArg (fun s => s.data.take 9) hcontra
    simp only [String.data_append] at hd
    rw [List.take_left' (by decide), List.take_left' (by decide)] at hd
    exact absurd hd (by decide)
  · intro hcontra
    have h1 : create_api_uri p API_TYPE.QUOTE = "https://q" ++ (".sfex.net/v1/" ++ p) := rfl
    have h2 : create_api_uri q API_TYPE.USER = "https://a" ++ ("pi.sfex.net/balance/" ++ q) := rfl
    rw [h1, h2] at hcontra
    have hd := congrArg (fun s => s.data.take 9) hcontra
    simp only [String.data_append] at hd
    rw [List.take_left' (by decide), List.take_left' (by decide)] at hd
    exact absurd hd (by decide)

theorem C4_uri_builder_witness :
    create_api_uri "ticker/BTCUSD" API_TYPE.QUOTE = "https://q.sfex.net/v1/" ++ "ticker/BTCUSD"
    ∧ create_api_uri "x" API_TYPE.QUOTE ≠ create_api_uri "y" API_TYPE.ORDER
    ∧ create_api_uri "x" API_TYPE.QUOTE ≠ create_api_uri "y" API_TYPE.USER :=
  ⟨(C4_uri_builder.1 "ticker/BTCUSD").2.2,
   (C4_uri_builder.2.2.2.2 "x" "y").1,
   (C4_uri_builder.2.2.2.2 "x" "y").2⟩

/-- C2: `create_buy_order(symbol, price, amount)` issues a signed POST to
`{order_host}/order/create` whose body holds exactly the six fields
`symbol, side=1, type=1, price, amount, nonce` in that insertion order, with
a `key` header equal to the API key and a `sign` header equal to the
HMAC-SHA-256/Base64 signature over exactly those six fields. -/
theorem C2_create_buy_order (c : Client) (symbol : String) (price amount : Param) (now : Int)
    (h : c.requests_params = none) :
    create_buy_order c symbol price amount now =
      { req := { method := "post",
                 uri := "https://api.sfex.net/order/create",
                 timeout := some 10,
                 data := buyOrderFields symbol price amount now,
                 params := [],
                 headers := [("version", "2.4"), ("key", c.API_KEY),
                             ("sign", generate_signature c.API_SECRET
                                        (buyOrderFields symbol price amount now))] },
        callerData := buyOrderFields symbol price amount now,
        clientAfter := c } := by
  obtain ⟨key, secret, rp⟩ := c
  cases rp with
  | none => rfl
  | some rp => exact Option.noConfusion h

theorem C2_create_buy_order_witness :
    demoClient.requests_params = none ∧
    create_buy_order demoClient "BTCUSD" (Param.s "100.0") (Param.s "1.0") 1700000000 =
      { req := { method := "post",
                 uri := "https://api.sfex.net/order/create",
                 timeout := some 10,
                 data := buyOrderFields "BTCUSD" (Param.s "100.0") (Param.s "1.0") 1700000000,
                 params := [],
                 headers := [("version", "2.4"), ("key", "demo-key"),
                             ("sign", generate_signature "demo-secret"
                                        (buyOrderFields "BTCUSD" (Param.s "100.0")
                                          (Param.s "1.0") 1700000000))] },
        callerData := buyOrderFields "BTCUSD" (Param.s "100.0") (Param.s "1.0") 1700000000,
        clientAfter := demoClient } :=
  ⟨rfl, C2_create_buy_order demoClient "BTCUSD" (Param.s "100.0") (Param.s "1.0") 1700000000 rfl⟩

/-- C5: on a signed dispatch a `nonce` field equal to the call-time Unix
seconds is set in the data mapping, a `key` header holds the API key and a
`sign` header holds the signature over the nonce-inclusive data; on an
unsigned dispatch the data is left as normalized and the headers hold only
the protocol version, so none of nonce, key or sign are added. -/
theorem C5_signed_dispatch (c : Client) (m path : String) (t : API_TYPE) (kw : Kwargs)
    (now : Int) (h : c.requests_params = none) :
    (request c m path t true kw now).req.data = dictSet (normMap kw.data) "nonce" (Param.i now)
    ∧ (request c m path t true kw now).req.headers =
        [("version", "2.4"), ("key", c.API_KEY),
         ("sign", generate_signature c.API_SECRET
                    (dictSet (normMap kw.data) "nonce" (Param.i now)))]
    ∧ (request c m path t false kw now).req.data = normMap kw.data
    ∧ (request c m path t false kw now).req.headers = [("version", "2.4")] := by
  obtain ⟨key, secret, rp⟩ := c
  cases rp with
  | none => exact ⟨rfl, rfl, rfl, rfl⟩
  | some rp => exact Option.noConfusion h

theorem C5_signed_dispatch_witness :
    (request demoClient "post" "create" API_TYPE.ORDER true
        { data := some (PyObj.dict [("x", Param.s "1")]) } 7).req.data =
      dictSet (normMap (some (PyObj.dict [("x", Param.s "1")]))) "nonce" (Param.i 7)
    ∧ (request demoClient "post" "create" API_TYPE.ORDER true
        { data := some (PyObj.dict [("x", Param.s "1")]) } 7).req.headers =
        [("version", "2.4"), ("key", demoClient.API_KEY),
         ("sign", generate_signature demoClient.API_SECRET
                    (dictSet (normMap (some (PyObj.dict [("x", Param.s "1")])))
                      "nonce" (Param.i 7)))]
    ∧ (request demoClient "post" "create" API_TYPE.ORDER false
        { data := some (PyObj.dict [("x", Param.s "1")]) } 7).req.data =
        normMap (some (PyObj.dict [("x", Param.s "1")]))
    ∧ (request demoClient "post" "create" API_TYPE.ORDER false
        { data := some (PyObj.dict [("x", Param.s "1")]) } 7).req.headers =
        [("version", "2.4")] :=
  C5_signed_dispatch demoClient "post" "create" API_TYPE.ORDER
    { data := some (PyObj.dict [("x", Param.s "1")]) } 7 rfl

theorem C7_query_counterexample :
    (get_depth demoClient "ETHUSD" 0).req.params = []
    ∧ (get_depth demoClient "ETHUSD" 0).req.data =
        [("offset", Param.i 10), ("accuracy", Param.i 5), ("size", Param.i 5)] :=
  ⟨rfl, rfl⟩

/-- C7 (amended): `get_depth(symbol)` issues an unsigned GET to
`{quote_host}/orderbook/{symbol}` carrying `offset=10, accuracy=5, size=5`
in the form-encoded body (`data`), with an empty query string and no key or
sign headers. -/
theorem C7_get_depth (c : Client) (symbol : String) (now : Int)
    (h : c.requests_params = none) :
    get_depth c symbol now =
      { req := { method := "get",
                 uri := "https://q.sfex.net/v1/orderbook/" ++ symbol,
                 timeout := some 10,
                 data := [("offset", Param.i 10), ("accuracy", Param.i 5), ("size", Param.i 5)],
                 params := [],
                 headers := [("version", "2.4")] },
        callerData := [("offset", Param.i 10), ("accuracy", Param.i 5), ("size", Param.i 5)],
        clientAfter := c } := by
  obtain ⟨key, secret, rp⟩ := c
  cases rp with
  | none => rfl
  | some rp => exact Option.noConfusion h

theorem C7_get_depth_witness :
    demoClient.requests_params = none ∧
    get_depth demoClient "ETHUSD" 42 =
      { req := { method := "get",
                 uri := "https://q.sfex.net/v1/orderbook/ETHUSD",
                 timeout := some 10,
                 data := [("offset", Param.i 10), ("accuracy", Param.i 5), ("size", Param.i 5)],
                 params := [],
                 headers := [("version", "2.4")] },
        callerData := [("offset", Param.i 10), ("accuracy", Param.i 5), ("size", Param.i 5)],
        clientAfter := demoClient } :=
  ⟨rfl, C7_get_depth demoClient "ETHUSD" 42 rfl⟩

theorem C8_empty_dict_counterexample :
    (get_user_balance demoClient 1700000000).req.data = [("nonce", Param.i 1700000000)]
    ∧ (get_user_balance demoClient 1700000000).callerData = [] :=
  ⟨rfl, rfl⟩

/-- C8 (amended): on a signed dispatch with a caller-supplied non-empty data
mapping that has no `nonce` key yet, the dispatcher mutates that mapping in
place, appending the nonce field, so the caller's mapping is changed; a
caller-supplied empty mapping is instead replaced by a fresh dict and left
untouched. -/
theorem C8_nonce_mutation (c : Client) (m path : String) (t : API_TYPE) (d : Dict)
    (now : Int) (h : c.requests_params = none) (hne : d ≠ [])
    (hnk : dictHasKey d "nonce" = false) :
    (request c m path t true { data := some (PyObj.dict d) } now).callerData =
        d ++ [("nonce", Param.i now)]
    ∧ (request c m path t true { data := some (PyObj.dict d) } now).callerData ≠ d := by
  obtain ⟨key, secret, rp⟩ := c
  cases rp with
  | some rp => exact Option.noConfusion h
  | none =>
    have hcaller :
        (request { API_KEY := key, API_SECRET := secret, requests_params := none }
            m path t true { data := some (PyObj.dict d) } now).callerData =
          d ++ [("nonce", Param.i now)] := by
      cases d with
      | nil => exact absurd rfl hne
      | cons p rest =>
        show dictSet (p :: rest) "nonce" (Param.i now) = (p :: rest) ++ [("nonce", Param.i now)]
        exact dictSet_not_mem (p :: rest) "nonce" (Param.i now) hnk
    refine ⟨hcaller, ?_⟩
    rw [hcaller]
    intro heq
    have hlen := congrArg List.length heq
    simp at hlen

theorem C8_nonce_mutation_witness :
    demoClient.requests_params = none
    ∧ ([("a", Param.s "1")] : Dict) ≠ []
    ∧ dictHasKey [("a", Param.s "1")] "nonce" = false
    ∧ (request demoClient "post" "create" API_TYPE.ORDER true
        { data := some (PyObj.dict [("a", Param.s "1")]) } 9).callerData =
        [("a", Param.s "1")] ++ [("nonce", Param.i 9)]
    ∧ (request demoClient "post" "create" API_TYPE.ORDER true
        { data := some (PyObj.dict [("a", Param.s "1")]) } 9).callerData ≠
        [("a", Param.s "1")] :=
  ⟨rfl, by decide, by decide,
   (C8_nonce_mutation demoClient "post" "create" API_TYPE.ORDER [("a", Param.s "1")] 9
      rfl (by decide) (by decide)).1,
   (C8_nonce_mutation demoClient "post" "create" API_TYPE.ORDER [("a", Param.s "1")] 9
      rfl (by decide) (by decide)).2⟩

/-- C9: a dispatch leaves the client's stored credentials exactly as at
construction, and the API secret flows only into the `sign` header: two
clients with the same key and the same request parameters but different
secrets produce identical method, URL, body, query, timeout and headers
except possibly the `sign` entry. -/
theorem C9_credentials (c1 c2 : Client) (m path : String) (t : API_TYPE) (signed : Bool)
    (kw : Kwargs) (now : Int)
    (hkey : c1.API_KEY = c2.API_KEY) (hrp : c1.requests_params = c2.requests_params) :
    (request c1 m path t signed kw now).clientAfter = c1
    ∧ (request c2 m path t signed kw now).clientAfter = c2
    ∧ (request c1 m path t signed kw now).req.method
        = (request c2 m path t signed kw now).req.method
    ∧ (request c1 m path t signed kw now).req.uri
        = (request c2 m path t signed kw now).req.uri
    ∧ (request c1 m path t signed kw now).req.data
        = (request c2 m path t signed kw now).req.data
    ∧ (request c1 m path t signed kw now).req.params
        = (request c2 m path t signed kw now).req.params
    ∧ (request c1 m path t signed kw now).req.timeout
        = (request c2 m path t signed kw now).req.timeout
    ∧ (request c1 m path t signed kw now).req.headers.filter (fun p => p.1 != "sign")
        = (request c2 m path t signed kw now).req.headers.filter (fun p => p.1 != "sign") := by
  obtain ⟨key1, secret1, rp1⟩ := c1
  obtain ⟨key2, secret2, rp2⟩ := c2
  simp only [Client.API_KEY, Client.requests_params] at hkey hrp
  subst hkey
  subst hrp
  cases signed with
  | false => exact ⟨rfl, rfl, rfl, rfl, rfl, rfl, rfl, rfl⟩
  | true => exact ⟨rfl, rfl, rfl, rfl, rfl, rfl, rfl, rfl⟩

theorem C9_credentials_witness :
    (request demoClient "post" "list" API_TYPE.USER true {} 3).clientAfter = demoClient
    ∧ (request demoClient2 "post" "list" API_TYPE.USER true {} 3).clientAfter = demoClient2
    ∧ (request demoClient "post" "list" API_TYPE.USER true {} 3).req.method
        = (request demoClient2 "post" "list" API_TYPE.USER true {} 3).req.method
    ∧ (request demoClient "post" "list" API_TYPE.USER true {} 3).req.uri
        = (request demoClient2 "post" "list" API_TYPE.USER true {} 3).req.uri
    ∧ (request demoClient "post" "list" API_TYPE.USER true {} 3).req.data
        = (request demoClient2 "post" "list" API_TYPE.USER true {} 3).req.data
    ∧ (request demoClient "post" "list" API_TYPE.USER true {} 3).req.params
        = (request demoClient2 "post" "list" API_TYPE.USER true {} 3).req.params
    ∧ (request demoClient "post" "list" API_TYPE.USER true {} 3).req.timeout
        = (request demoClient2 "post" "list" API_TYPE.USER true {} 3).req.timeout
    ∧ (request demoClient "post" "list" API_TYPE.USER true {} 3).req.headers.filter
          (fun p => p.1 != "sign")
        = (request demoClient2 "post" "list" API_TYPE.USER true {} 3).req.headers.filter
          (fun p => p.1 != "sign") :=
  C9_credentials demoClient demoClient2 "post" "list" API_TYPE.USER true {} 3 rfl rfl

/-- C10: the per-request headers assembled by the dispatcher are exactly the
version header for unsigned calls, and version plus `key` plus `sign` (over
the outgoing body) for signed calls, regardless of any headers supplied via
caller keyword arguments or global request parameters; the timeout defaults
to 10 and a timeout injected via the global request parameters does take
effect. -/
theorem C10_header_assembly (c : Client) (m path : String) (t : API_TYPE) (signed : Bool)
    (kw : Kwargs) (now : Int) :
    (request c m path t signed kw now).req.headers =
      (if signed then
        [("version", "2.4"), ("key", c.API_KEY),
         ("sign", generate_signature c.API_SECRET (request c m path t signed kw now).req.data)]
       else [("version", "2.4")])
    ∧ (c.requests_params = none → (request c m path t signed kw now).req.timeout = some 10)
    ∧ (∀ rp : ReqParams, c.requests_params = some rp →
        (request c m path t signed kw now).req.timeout = (rp.timeout <|> some 10)) := by
  obtain ⟨key, secret, rpo⟩ := c
  cases rpo with
  | none =>
    cases signed with
    | false =>
      exact ⟨rfl, fun _ => rfl, fun rp hrp => Option.noConfusion hrp⟩
    | true =>
      exact ⟨rfl, fun _ => rfl, fun rp hrp => Option.noConfusion hrp⟩
  | some rp0 =>
    cases signed with
    | false =>
      refine ⟨rfl, fun hcontra => Option.noConfusion hcontra, fun rp hrp => ?_⟩
      injection hrp with hrp0
      subst hrp0
      rfl
    | true =>
      refine ⟨rfl, fun hcontra => Option.noConfusion hcontra, fun rp hrp => ?_⟩
      injection hrp with hrp0
      subst hrp0
      rfl

theorem C10_header_assembly_witness :
    (request demoRpClient "get" "x" API_TYPE.ORDER false {} 5).req.timeout = (some 42 <|> some 10)
    ∧ (request demoClient "get" "x" API_TYPE.ORDER false {} 5).req.timeout = some 10
    ∧ (request demoRpClient "get" "x" API_TYPE.ORDER false {} 5).req.headers =
        (if false then
          [("version", "2.4"), ("key", demoRpClient.API_KEY),
           ("sign", generate_signature demoRpClient.API_SECRET
                      (request demoRpClient "get" "x" API_TYPE.ORDER false {} 5).req.data)]
         else [("version", "2.4")]) :=
  ⟨(C10_header_assembly demoRpClient "get" "x" API_TYPE.ORDER false {} 5).2.2
      { timeout := some 42, headers := some (PyObj.dict [("key", Param.s "spoof")]) } rfl,
   (C10_header_assembly demoClient "get" "x" API_TYPE.ORDER false {} 5).2.1 rfl,
   (C10_header_assembly demoRpClient "get" "x" API_TYPE.ORDER false {} 5).1⟩

/-- Tail of a `'&'.join` after its first fragment. -/
def joinTail : List String → String
  | [] => ""
  | s :: rest => "&" ++ joinAmp (s :: rest)

theorem joinAmp_cons (x : String) (r : List String) :
    joinAmp (x :: r) = x ++ joinTail r := by
  cases r with
  | nil => simp [joinAmp, joinTail]
  | cons s rest => simp [joinAmp, joinTail, String.append_assoc]

/-- Concatenation of the fragments before a distinguished position, each
followed by its separator. -/
def preJoin : List String → String
  | [] => ""
  | a :: rest => a ++ "&" ++ preJoin rest

theorem joinTail_append_cons (A : List String) (x : String) (B : List String) :
    joinTail (A ++ x :: B) = "&" ++ joinAmp (A ++ x :: B) := by
  cases A with
  | nil => rfl
  | cons a A2 => rfl

theorem joinAmp_split (A : List String) (x : String) (B : List String) :
    (joinAmp (A ++ x :: B)).data = (preJoin A).data ++ (x.data ++ (joinTail B).data) := by
  induction A with
  | nil => simp [joinAmp_cons, preJoin, String.data_append]
  | cons a A2 ih =>
    rw [List.cons_append, joinAmp_cons, joinTail_append_cons]
    simp only [String.data_append, preJoin]
    rw [ih]
    simp [List.append_assoc]

theorem queryString_change (pre post : Dict) (p1 p2 : String × Param)
    (hf : fmtPair p1 ≠ fmtPair p2) :
    queryString (pre ++ p1 :: post) ≠ queryString (pre ++ p2 :: post) := by
  intro hcontra
  apply hf
  unfold queryString at hcontra
  rw [order_params_eq, order_params_eq, List.map_append, List.map_cons,
      List.map_append, List.map_cons] at hcontra
  have hd := congrArg String.data hcontra
  rw [joinAmp_split, joinAmp_split] at hd
  have h1 := List.append_cancel_left hd
  have h2 := List.append_cancel_right h1
  exact String.ext h2

theorem queryString_value_change (pre : Dict) (k : String) (v vp : Param) (post : Dict)
    (hv : Param.str v ≠ Param.str vp) :
    queryString (pre ++ (k, v) :: post) ≠ queryString (pre ++ (k, vp) :: post) := by
  apply queryString_change
  intro hf
  apply hv
  have hd := congrArg String.data hf
  simp only [fmtPair, String.data_append] at hd
  rw [List.append_assoc, List.append_assoc] at hd
  have h2 := List.append_cancel_left hd
  have h3 := List.append_cancel_left h2
  exact String.ext h3

theorem queryString_key_change (pre : Dict) (k kp : String) (v : Param) (post : Dict)
    (hk : k ≠ kp) :
    queryString (pre ++ (k, v) :: post) ≠ queryString (pre ++ (kp, v) :: post) := by
  apply queryString_change
  intro hf
  apply hk
  have hd := congrArg String.data hf
  simp only [fmtPair, String.data_append] at hd
  have h2 := List.append_cancel_right hd
  have h3 := List.append_cancel_right h2
  exact String.ext h3

/-- C3 (amended): signing is deterministic — equal ordered parameter
sequences give identical signatures, and the signature is a function of the
canonical query string alone; replacing the value of any one pair by a value
with a different rendering, or its key by a different key, changes the
canonical string over which the HMAC is computed.  (Reordering, by contrast,
need not change the signature — see the counterexample.) -/
theorem C3_signature_determinism :
    (∀ (secret : String) (d1 d2 : Dict), d1 = d2 →
        generate_signature secret d1 = generate_signature secret d2)
    ∧ (∀ (secret : String) (d1 d2 : Dict), queryString d1 = queryString d2 →
        generate_signature secret d1 = generate_signature secret d2)
    ∧ (∀ (pre : Dict) (k : String) (v vp : Param) (post : Dict),
        Param.str v ≠ Param.str vp →
        queryString (pre ++ (k, v) :: post) ≠ queryString (pre ++ (k, vp) :: post))
    ∧ (∀ (pre : Dict) (k kp : String) (v : Param) (post : Dict), k ≠ kp →
        queryString (pre ++ (k, v) :: post) ≠ queryString (pre ++ (kp, v) :: post)) := by
  refine ⟨fun secret d1 d2 h => by rw [h], fun secret d1 d2 h => ?_,
    queryString_value_change, queryString_key_change⟩
  unfold generate_signature
  rw [h]

theorem C3_reorder_counterexample :
    ([("a", Param.s "1"), ("a=1&a", Param.s "1")] : Dict) ≠
      [("a=1&a", Param.s "1"), ("a", Param.s "1")]
    ∧ List.Perm ([("a", Param.s "1"), ("a=1&a", Param.s "1")] : Dict)
        [("a=1&a", Param.s "1"), ("a", Param.s "1")]
    ∧ generate_signature "demo-secret" [("a", Param.s "1"), ("a=1&a", Param.s "1")] =
        generate_signature "demo-secret" [("a=1&a", Param.s "1"), ("a", Param.s "1")] := by
  refine ⟨by decide, List.Perm.swap ("a=1&a", Param.s "1") ("a", Param.s "1") [], ?_⟩
  have hq : queryString [("a", Param.s "1"), ("a=1&a", Param.s "1")] =
      queryString [("a=1&a", Param.s "1"), ("a", Param.s "1")] := rfl
  unfold generate_signature
  rw [hq]

theorem C3_signature_determinism_witness :
    generate_signature "demo-secret" [("x", Param.s "1")] =
      generate_signature "demo-secret" [("x", Param.s "1")]
    ∧ generate_signature "demo-secret" [("y", Param.s "2")] =
      generate_signature "demo-secret" [("y", Param.s "2")]
    ∧ queryString ([] ++ ("k", Param.s "1") :: []) ≠ queryString ([] ++ ("k", Param.s "2") :: [])
    ∧ queryString ([] ++ ("k", Param.s "1") :: []) ≠ queryString ([] ++ ("q", Param.s "1") :: []) :=
  ⟨C3_signature_determinism.1 "demo-secret" _ _ rfl,
   C3_signature_determinism.2.1 "demo-secret" _ _ rfl,
   C3_signature_determinism.2.2.1 [] "k" (Param.s "1") (Param.s "2") [] (by decide),
   C3_signature_determinism.2.2.2 [] "k" "q" (Param.s "1") [] (by decide)⟩

theorem firstDecimalDigit_small (n : Nat) (h : n < 10) : firstDecimalDigit n = n := by
  rw [firstDecimalDigit, dif_pos h]

theorem firstDecimalDigit_step (n : Nat) (h : ¬ n < 10) :
    firstDecimalDigit n = firstDecimalDigit (n / 10) := by
  conv_lhs => rw [firstDecimalDigit]
  rw [dif_neg h]

theorem firstDecimalDigit_lt (n : Nat) : firstDecimalDigit n < 10 := by
  induction n using Nat.strong_induction_on with
  | _ n ih =>
    by_cases h : n < 10
    · rw [firstDecimalDigit_small n h]
      exact h
    · rw [firstDecimalDigit_step n h]
      exact ih (n / 10) (Nat.div_lt_self (by omega) (by omega))

theorem toDigitsCore_head (fuel : Nat) : ∀ (n : Nat) (ds : List Char), n < fuel →
    (Nat.toDigitsCore 10 fuel n ds).head? = some (Nat.digitChar (firstDecimalDigit n)) := by
  induction fuel with
  | zero => intro n ds h; omega
  | succ f ih =>
    intro n ds h
    rw [Nat.toDigitsCore]
    by_cases h0 : n / 10 = 0
    · have hn : n < 10 := by
        rcases Nat.lt_or_ge n 10 with hlt | hge
        · exact hlt
        · exact absurd h0 (by
            have : 1 ≤ n / 10 := Nat.le_div_iff_mul_le (by omega) |>.mpr (by omega)
            omega)
      rw [if_pos h0]
      rw [firstDecimalDigit_small n hn, Nat.mod_eq_of_lt hn]
      rfl
    · have h10 : ¬ n < 10 := fun hlt => h0 (Nat.div_eq_of_lt hlt)
      have hlt2 : n / 10 < f :=
        Nat.lt_of_lt_of_le (Nat.div_lt_self (by omega) (by omega)) (by omega)
      rw [if_neg h0]
      rw [ih (n / 10) _ hlt2, firstDecimalDigit_step n h10]

theorem repr_head (n : Nat) :
    (Nat.repr n).data.head? = some (Nat.digitChar (firstDecimalDigit n)) :=
  toDigitsCore_head (n + 1) n [] (Nat.lt_succ_self n)

theorem startswith2_iff (n : Nat) :
    startswith2 (Nat.repr n) = true ↔ firstDecimalDigit n = 2 := by
  have hh := repr_head n
  unfold startswith2
  cases hdata : (Nat.repr n).data with
  | nil =>
    rw [hdata] at hh
    simp at hh
  | cons c rest =>
    rw [hdata] at hh
    simp only [List.head?_cons, Option.some.injEq] at hh
    subst hh
    change (Nat.digitChar (firstDecimalDigit n) == '2') = true ↔ firstDecimalDigit n = 2
    have hlt := firstDecimalDigit_lt n
    revert hlt
    generalize firstDecimalDigit n = d
    intro hlt
    interval_cases d <;> decide

/-- C6: the response decoder returns `none` for every response whose status
code's first decimal digit is not 2 (in particular 300, 404 and 500), and
for a status whose first digit is 2 it returns the parsed body — the parse
result when parsing succeeded, `none` when the body was empty or
unparseable. -/
theorem C6_handle_response :
    (∀ (J : Type) (r : Response J), firstDecimalDigit r.status_code ≠ 2 →
        handle_response r = none)
    ∧ (∀ (J : Type) (r : Response J), firstDecimalDigit r.status_code = 2 →
        handle_response r = r.jsonBody)
    ∧ handle_response ({ status_code := 300, jsonBody := some 0 } : Response Nat) = none
    ∧ handle_response ({ status_code := 404, jsonBody := some 0 } : Response Nat) = none
    ∧ handle_response ({ status_code := 500, jsonBody := some 0 } : Response Nat) = none
    ∧ handle_response ({ status_code := 200, jsonBody := some 7 } : Response Nat) = some 7
    ∧ handle_response ({ status_code := 200, jsonBody := none } : Response Nat) = none := by
  refine ⟨?_, ?_, rfl, rfl, rfl, rfl, rfl⟩
  · intro J r h
    unfold handle_response
    rw [if_neg]
    intro hsw
    exact h ((startswith2_iff r.status_code).mp hsw)
  · intro J r h
    unfold handle_response
    rw [if_pos ((startswith2_iff r.status_code).mpr h)]

theorem C6_handle_response_witness :
    handle_response ({ status_code := 418, jsonBody := some 3 } : Response Nat) = none
    ∧ handle_response ({ status_code := 204, jsonBody := some 3 } : Response Nat) = some 3 :=
  ⟨C6_handle_response.1 Nat { status_code := 418, jsonBody := some 3 }
      (by simp [firstDecimalDigit]),
   C6_handle_response.2.1 Nat { status_code := 204, jsonBody := some 3 }
      (by simp [firstDecimalDigit])⟩

end Sfex
